import Mathlib

/-
Shallow embedding of the delta-bar-delta update policy from
include/ensmallen_bits/delta_bar_delta/delta_bar_delta_impl.hpp.

Matrix element arithmetic is modelled exactly over the rationals; a
rows x cols matrix is a total function on Fin indices, so all tensors of
one policy state share a shape by construction.  The armadillo
clamp(minStepSize, inf) call has an infinite upper bound, which is
modelled as a lower clamp only (elementwise max with minStepSize).
-/

namespace ens

/-- A rows x cols matrix with rational entries: the model of MatType. -/
abbrev Mat (rows cols : ℕ) : Type := Fin rows → Fin cols → ℚ

/-- Elementwise sign as armadillo computes it: 1 on positives, -1 on
negatives, 0 at zero. -/
def sign (x : ℚ) : ℚ := if 0 < x then 1 else if x < 0 then -1 else 0

/-- The hyperparameter holder DeltaBarDeltaUpdate: five scalar fields with
read/write accessors and no validation. -/
structure DeltaBarDeltaUpdate where
  initialStepSize : ℚ
  kappa : ℚ
  phi : ℚ
  theta : ℚ
  minStepSize : ℚ

/-- The per-run policy state DeltaBarDeltaUpdate::Policy: the stored parent
reference, the four scalars copied from the parent at construction, and the
two per-parameter state tensors. -/
structure Policy (rows cols : ℕ) where
  parent : DeltaBarDeltaUpdate
  kappa : ℚ
  phi : ℚ
  theta : ℚ
  minStepSize : ℚ
  delta_bar : Mat rows cols
  epsilon : Mat rows cols

/-- The Policy constructor: stores the parent reference, copies kappa, phi,
theta and minStepSize from the parent, zero-fills delta_bar, and fills
epsilon with the parent's initial step size. -/
def mkPolicy (parent : DeltaBarDeltaUpdate) (rows cols : ℕ) : Policy rows cols where
  parent := parent
  kappa := parent.kappa
  phi := parent.phi
  theta := parent.theta
  minStepSize := parent.minStepSize
  delta_bar := fun _ _ => 0
  epsilon := fun _ _ => parent.initialStepSize

/-- Policy::Update, translated statement by statement from the source.
The locals signMatrix, sameSignMask and diffSignMask mirror the C++ locals;
epsilonA and epsilonB are the epsilon tensor after lines 195 and 196,
epsilonC after the clamp on line 197; deltaBarA and deltaBarB are delta_bar
after lines 200 and 201; the returned pair is the new policy state and the
new iterate (line 203).  The stepSize argument is accepted and unused,
exactly as in the source. -/
def Policy.Update (p : Policy rows cols) (iterate : Mat rows cols)
    (stepSize : ℚ) (delta : Mat rows cols) : Policy rows cols × Mat rows cols :=
  let signMatrix : Mat rows cols := fun i j => sign (delta i j * p.delta_bar i j)
  let sameSignMask : Mat rows cols := fun i j => if signMatrix i j = 1 then 1 else 0
  let diffSignMask : Mat rows cols := fun i j => if signMatrix i j = -1 then 1 else 0
  let epsilonA : Mat rows cols := fun i j => p.epsilon i j + sameSignMask i j * p.kappa
  let epsilonB : Mat rows cols := fun i j =>
    epsilonA i j - diffSignMask i j * p.phi * epsilonA i j
  let epsilonC : Mat rows cols := fun i j => max (epsilonB i j) p.minStepSize
  let deltaBarA : Mat rows cols := fun i j => p.theta * p.delta_bar i j
  let deltaBarB : Mat rows cols := fun i j => deltaBarA i j + (1 - p.theta) * delta i j
  let iterateNew : Mat rows cols := fun i j => iterate i j - epsilonC i j * delta i j
  ({ p with epsilon := epsilonC, delta_bar := deltaBarB }, iterateNew)

/-- The record of constructor arguments the DeltaBarDelta wrapper forwards
to the generic gradient-descent driver (the NoDecay decay policy carries no
data and is omitted). -/
structure GradientDescentConfig where
  stepSize : ℚ
  maxIterations : ℕ
  tolerance : ℚ
  updatePolicy : DeltaBarDeltaUpdate
  resetPolicy : Bool

/-- The DeltaBarDelta convenience constructor: forwards stepSize to the
driver and also uses it as the update policy's initial step size. -/
def DeltaBarDelta (stepSize : ℚ) (maxIterations : ℕ) (tolerance : ℚ)
    (kappa : ℚ) (phi : ℚ) (theta : ℚ) (minStepSize : ℚ)
    (resetPolicy : Bool) : GradientDescentConfig where
  stepSize := stepSize
  maxIterations := maxIterations
  tolerance := tolerance
  updatePolicy := ⟨stepSize, kappa, phi, theta, minStepSize⟩
  resetPolicy := resetPolicy

/-- Sample 1 x 1 zero matrix, for concrete witnesses. -/
def zeroMat : Mat 1 1 := fun _ _ => 0

/-- Sample 1 x 1 all-ones matrix, for concrete witnesses. -/
def oneMat : Mat 1 1 := fun _ _ => 1

/-- Sample 1 x 1 all minus-ones matrix, for concrete witnesses. -/
def negOneMat : Mat 1 1 := fun _ _ => -1

/-- A sample 1 x 1 policy state with kappa = 2, phi = 1/2, theta = 1/2,
minStepSize = 1/100, delta_bar = 1 and epsilon = 1, for concrete
witnesses. -/
def samplePolicy : Policy 1 1 :=
  ⟨⟨1, 2, 1/2, 1/2, 1/100⟩, 2, 1/2, 1/2, 1/100, oneMat, oneMat⟩

/-- Helper: when the gradient and the stored delta_bar have a strictly
positive product at (i, j), the post-Update epsilon there is the clamped
additive increase. -/
theorem epsilon_after_pos (p : Policy rows cols) (iterate : Mat rows cols)
    (stepSize : ℚ) (delta : Mat rows cols) (i : Fin rows) (j : Fin cols)
    (h : 0 < delta i j * p.delta_bar i j) :
    ((p.Update iterate stepSize delta).fst).epsilon i j =
      max (p.epsilon i j + p.kappa) p.minStepSize := by
  simp only [Policy.Update, sign]
  simp only [h, if_true]
  norm_num

/-- Helper: when the gradient and the stored delta_bar have a strictly
negative product at (i, j), the post-Update epsilon there is the clamped
multiplicative decrease. -/
theorem epsilon_after_neg (p : Policy rows cols) (iterate : Mat rows cols)
    (stepSize : ℚ) (delta : Mat rows cols) (i : Fin rows) (j : Fin cols)
    (h : delta i j * p.delta_bar i j < 0) :
    ((p.Update iterate stepSize delta).fst).epsilon i j =
      max (p.epsilon i j * (1 - p.phi)) p.minStepSize := by
  simp only [Policy.Update, sign]
  simp only [h, h.not_lt, if_false, if_true]
  norm_num
  congr 1
  ring

/-- Helper: when the gradient and the stored delta_bar have product exactly
zero at (i, j), the post-Update epsilon there is the old value clamped from
below by minStepSize, with neither kappa nor phi applied. -/
theorem epsilon_after_zero (p : Policy rows cols) (iterate : Mat rows cols)
    (stepSize : ℚ) (delta : Mat rows cols) (i : Fin rows) (j : Fin cols)
    (h : delta i j * p.delta_bar i j = 0) :
    ((p.Update iterate stepSize delta).fst).epsilon i j =
      max (p.epsilon i j) p.minStepSize := by
  simp only [Policy.Update, sign, h]
  norm_num

/-- Claim C1: after any Update call, from any policy state whatsoever (hence
after any sequence of prior Update calls with arbitrary gradients), every
element of epsilon is at least minStepSize. -/
theorem C1_epsilon_floor (p : Policy rows cols) (iterate : Mat rows cols)
    (stepSize : ℚ) (delta : Mat rows cols) (i : Fin rows) (j : Fin cols) :
    ((p.Update iterate stepSize delta).fst).epsilon i j ≥ p.minStepSize := by
  simp only [Policy.Update]
  exact le_max_right _ _

/-- Claim C2: every Update call moves the iterate by the post-update epsilon
times the unmodified input gradient, elementwise, and the stepSize scalar
argument plays no role in the result. -/
theorem C2_iterate_step (p : Policy rows cols) (iterate : Mat rows cols)
    (stepSize stepSize2 : ℚ) (delta : Mat rows cols) (i : Fin rows) (j : Fin cols) :
    (p.Update iterate stepSize delta).snd i j =
      iterate i j - ((p.Update iterate stepSize delta).fst).epsilon i j * delta i j ∧
    p.Update iterate stepSize delta = p.Update iterate stepSize2 delta :=
  ⟨rfl, rfl⟩

/-- Claim C3: where the gradient and the pre-update delta_bar are both
strictly positive or both strictly negative, epsilon after the call equals
max(epsilon_before + kappa, minStepSize). -/
theorem C3_same_sign_increase (p : Policy rows cols) (iterate : Mat rows cols)
    (stepSize : ℚ) (delta : Mat rows cols) (i : Fin rows) (j : Fin cols)
    (h : (0 < delta i j ∧ 0 < p.delta_bar i j) ∨
      (delta i j < 0 ∧ p.delta_bar i j < 0)) :
    ((p.Update iterate stepSize delta).fst).epsilon i j =
      max (p.epsilon i j + p.kappa) p.minStepSize := by
  refine epsilon_after_pos p iterate stepSize delta i j ?_
  rcases h with ⟨h1, h2⟩ | ⟨h1, h2⟩
  · exact mul_pos h1 h2
  · exact mul_pos_of_neg_of_neg h1 h2

/-- Witness for C3 at a concrete state with gradient 1 and delta_bar 1. -/
theorem C3_same_sign_increase_witness :
    (((0:ℚ) < oneMat 0 0 ∧ (0:ℚ) < samplePolicy.delta_bar 0 0) ∨
      (oneMat 0 0 < 0 ∧ samplePolicy.delta_bar 0 0 < 0)) ∧
    (samplePolicy.Update zeroMat 1 oneMat).fst.epsilon 0 0 =
      max (samplePolicy.epsilon 0 0 + samplePolicy.kappa) samplePolicy.minStepSize :=
  ⟨Or.inl ⟨by norm_num [oneMat], by norm_num [samplePolicy, oneMat]⟩,
    C3_same_sign_increase samplePolicy zeroMat 1 oneMat 0 0
      (Or.inl ⟨by norm_num [oneMat], by norm_num [samplePolicy, oneMat]⟩)⟩

/-- Claim C4: where the gradient and the pre-update delta_bar have strictly
opposite signs, epsilon after the call equals
max(epsilon_before * (1 - phi), minStepSize). -/
theorem C4_sign_flip_decrease (p : Policy rows cols) (iterate : Mat rows cols)
    (stepSize : ℚ) (delta : Mat rows cols) (i : Fin rows) (j : Fin cols)
    (h : (0 < delta i j ∧ p.delta_bar i j < 0) ∨
      (delta i j < 0 ∧ 0 < p.delta_bar i j)) :
    ((p.Update iterate stepSize delta).fst).epsilon i j =
      max (p.epsilon i j * (1 - p.phi)) p.minStepSize := by
  refine epsilon_after_neg p iterate stepSize delta i j ?_
  rcases h with ⟨h1, h2⟩ | ⟨h1, h2⟩
  · exact mul_neg_of_pos_of_neg h1 h2
  · exact mul_neg_of_neg_of_pos h1 h2

/-- Witness for C4 at a concrete state with gradient -1 and delta_bar 1. -/
theorem C4_sign_flip_decrease_witness :
    (((0:ℚ) < negOneMat 0 0 ∧ samplePolicy.delta_bar 0 0 < 0) ∨
      (negOneMat 0 0 < 0 ∧ (0:ℚ) < samplePolicy.delta_bar 0 0)) ∧
    (samplePolicy.Update zeroMat 1 negOneMat).fst.epsilon 0 0 =
      max (samplePolicy.epsilon 0 0 * (1 - samplePolicy.phi)) samplePolicy.minStepSize :=
  ⟨Or.inr ⟨by norm_num [negOneMat], by norm_num [samplePolicy, oneMat]⟩,
    C4_sign_flip_decrease samplePolicy zeroMat 1 negOneMat 0 0
      (Or.inr ⟨by norm_num [negOneMat], by norm_num [samplePolicy, oneMat]⟩)⟩

/-- Counterexample to claim C5 as stated: from a freshly-constructed state
with initialStepSize = 1/2 below minStepSize = 1, one Update call with an
all-zero gradient (so the product with delta_bar is zero at every element)
still changes epsilon, because the clamp on line 197 raises it to the
floor. -/
theorem C5_zero_sign_counterexample :
    (fun (_ : Fin 1) (_ : Fin 1) => (0:ℚ)) 0 0 *
      (mkPolicy ⟨1/2, 1, 1, 1, 1⟩ 1 1).delta_bar 0 0 = 0 ∧
    ((mkPolicy ⟨1/2, 1, 1, 1, 1⟩ 1 1).Update (fun _ _ => 0) 1
        (fun _ _ => 0)).fst.epsilon 0 0 ≠
      (mkPolicy ⟨1/2, 1, 1, 1, 1⟩ 1 1).epsilon 0 0 := by
  constructor
  · norm_num [mkPolicy]
  · norm_num [mkPolicy, Policy.Update, sign]

/-- Claim C5 amended: where the product of the gradient and the pre-update
delta_bar is exactly zero, epsilon is neither incremented by kappa nor
decremented by phi; it only passes through the floor clamp, so the new
value is max(epsilon_before, minStepSize), which is the unchanged old value
whenever epsilon_before is already at least minStepSize. -/
theorem C5_zero_sign_no_adaptation (p : Policy rows cols) (iterate : Mat rows cols)
    (stepSize : ℚ) (delta : Mat rows cols) (i : Fin rows) (j : Fin cols)
    (h : delta i j * p.delta_bar i j = 0) :
    ((p.Update iterate stepSize delta).fst).epsilon i j =
      max (p.epsilon i j) p.minStepSize :=
  epsilon_after_zero p iterate stepSize delta i j h

/-- Witness for the amended C5 at a concrete state with a zero gradient. -/
theorem C5_zero_sign_no_adaptation_witness :
    zeroMat 0 0 * samplePolicy.delta_bar 0 0 = 0 ∧
    (samplePolicy.Update oneMat 1 zeroMat).fst.epsilon 0 0 =
      max (samplePolicy.epsilon 0 0) samplePolicy.minStepSize :=
  ⟨by norm_num [zeroMat, samplePolicy, oneMat],
    C5_zero_sign_no_adaptation samplePolicy oneMat 1 zeroMat 0 0
      (by norm_num [zeroMat, samplePolicy, oneMat])⟩

/-- Counterexample to claim C6 as stated: a state with delta_bar = 1 and
theta = 1/2, updated with an all-zero gradient, does not keep delta_bar
unchanged: lines 200 and 201 rescale it to theta * delta_bar = 1/2. -/
theorem C6_zero_gradient_counterexample :
    ((⟨⟨1, 1, 1, 1/2, 0⟩, 1, 1, 1/2, 0, fun _ _ => 1, fun _ _ => 1⟩ :
        Policy 1 1).Update (fun _ _ => 0) 1 (fun _ _ => 0)).fst.delta_bar 0 0 ≠
      (⟨⟨1, 1, 1, 1/2, 0⟩, 1, 1, 1/2, 0, fun _ _ => 1, fun _ _ => 1⟩ :
        Policy 1 1).delta_bar 0 0 := by
  norm_num [Policy.Update]

/-- Claim C6 amended: an Update call with an all-zero gradient leaves the
iterate unchanged, sets every epsilon element to max(epsilon_before,
minStepSize) (unchanged whenever it was already at or above the floor), and
rescales every delta_bar element to theta times its old value (unchanged
only when it was zero or theta = 1). -/
theorem C6_zero_gradient (p : Policy rows cols) (iterate : Mat rows cols)
    (stepSize : ℚ) :
    (p.Update iterate stepSize (fun _ _ => 0)).snd = iterate ∧
    (∀ (i : Fin rows) (j : Fin cols),
      ((p.Update iterate stepSize (fun _ _ => 0)).fst).epsilon i j =
        max (p.epsilon i j) p.minStepSize) ∧
    (∀ (i : Fin rows) (j : Fin cols),
      ((p.Update iterate stepSize (fun _ _ => 0)).fst).delta_bar i j =
        p.theta * p.delta_bar i j) := by
  refine ⟨?_, ?_, ?_⟩
  · funext i j
    simp [Policy.Update]
  · intro i j
    exact epsilon_after_zero p iterate stepSize (fun _ _ => 0) i j (zero_mul _)
  · intro i j
    simp [Policy.Update]

/-- Claim C7: every Update call renews delta_bar elementwise to
theta * delta_bar_before + (1 - theta) * gradient, and the epsilon produced
by the very same call is governed by the sign of the product of the
gradient with delta_bar_before, the old value, not the renewed one. -/
theorem C7_delta_bar_decay (p : Policy rows cols) (iterate : Mat rows cols)
    (stepSize : ℚ) (delta : Mat rows cols) (i : Fin rows) (j : Fin cols) :
    ((p.Update iterate stepSize delta).fst).delta_bar i j =
      p.theta * p.delta_bar i j + (1 - p.theta) * delta i j ∧
    ((p.Update iterate stepSize delta).fst).epsilon i j =
      max (if 0 < delta i j * p.delta_bar i j then p.epsilon i j + p.kappa
        else if delta i j * p.delta_bar i j < 0 then p.epsilon i j * (1 - p.phi)
        else p.epsilon i j) p.minStepSize := by
  refine ⟨rfl, ?_⟩
  rcases lt_trichotomy (delta i j * p.delta_bar i j) 0 with h | h | h
  · rw [if_neg (not_lt.mpr h.le), if_pos h]
    exact epsilon_after_neg p iterate stepSize delta i j h
  · rw [if_neg (not_lt.mpr h.le), if_neg (not_lt.mpr h.ge)]
    exact epsilon_after_zero p iterate stepSize delta i j h
  · rw [if_pos h]
    exact epsilon_after_pos p iterate stepSize delta i j h

/-- Claim C8: Update reads only the scalars the Policy constructor copied
out of the hyperparameter holder, never the stored parent reference, so
replacing the referenced holder by an arbitrarily mutated one after
construction changes nothing about any Update result. -/
theorem C8_holder_mutation_irrelevant (p : Policy rows cols)
    (mutated : DeltaBarDeltaUpdate) (iterate : Mat rows cols)
    (stepSize : ℚ) (delta : Mat rows cols) :
    (({ p with parent := mutated } : Policy rows cols).Update
        iterate stepSize delta).fst.epsilon =
      (p.Update iterate stepSize delta).fst.epsilon ∧
    (({ p with parent := mutated } : Policy rows cols).Update
        iterate stepSize delta).fst.delta_bar =
      (p.Update iterate stepSize delta).fst.delta_bar ∧
    (({ p with parent := mutated } : Policy rows cols).Update
        iterate stepSize delta).snd =
      (p.Update iterate stepSize delta).snd :=
  ⟨rfl, rfl, rfl⟩

/-- Claim C9, evaluated at the failing input: the new policy state computed
by Update is one and the same for every iterate (and stepSize) argument,
because lines 191 to 201 never read the iterate, and at a concrete state
with gradient 1 and delta_bar 1 that state has a changed epsilon; so a call
with a shape-mismatched iterate commits the epsilon and delta_bar mutations
before the final line, the only one that touches the iterate, can fail. -/
theorem C9_state_mutated_regardless_of_iterate :
    (∀ (it it2 : Mat 1 1) (s s2 : ℚ),
      (samplePolicy.Update it s oneMat).fst =
        (samplePolicy.Update it2 s2 oneMat).fst) ∧
    (samplePolicy.Update zeroMat 1 oneMat).fst.epsilon 0 0 ≠
      samplePolicy.epsilon 0 0 :=
  ⟨fun _ _ _ _ => rfl, by norm_num [samplePolicy, oneMat, Policy.Update, sign]⟩

/-- Claim C10: the DeltaBarDelta convenience constructor passes its single
stepSize argument both as the driver step size and as the update policy's
initial step size, so a state constructed from that policy has every
epsilon element equal to stepSize and every delta_bar element zero. -/
theorem C10_single_step_size (stepSize : ℚ) (maxIterations : ℕ)
    (tolerance kappa phi theta minStepSize : ℚ) (resetPolicy : Bool)
    (rows cols : ℕ) (i : Fin rows) (j : Fin cols) :
    (DeltaBarDelta stepSize maxIterations tolerance kappa phi theta
        minStepSize resetPolicy).updatePolicy.initialStepSize =
      (DeltaBarDelta stepSize maxIterations tolerance kappa phi theta
        minStepSize resetPolicy).stepSize ∧
    (mkPolicy (DeltaBarDelta stepSize maxIterations tolerance kappa phi theta
        minStepSize resetPolicy).updatePolicy rows cols).epsilon i j = stepSize ∧
    (mkPolicy (DeltaBarDelta stepSize maxIterations tolerance kappa phi theta
        minStepSize resetPolicy).updatePolicy rows cols).delta_bar i j = 0 :=
  ⟨rfl, rfl, rfl⟩

end ens
